import Mathlib

/-!
Verification development for the Endless Dodge arcade game (src/game.c).

The simulation core of the C program is shallowly embedded below:

* C `float` values are modelled as rationals (`ℚ`);
* the per-slot obstacle array `Obstacle obstacles[MAX_OBSTACLES]` is a
  `List Obstacle` (first-fit spawning scans by index, as in the C loop);
* `rand()` is modelled by passing the raw value `r : ℕ` (with `r ≤ RAND_MAX`)
  into `rand_range`, one value per call site;
* `SDL_GetTicks()` is modelled by passing the current millisecond timestamp
  `now : ℕ` into the functions that read it; the C expression
  `(float)(now - game->lastSpawnTicks)` uses unsigned subtraction, which for a
  monotone tick source equals the natural-number subtraction used here;
* the C cast `(int)` applied to a nonnegative float truncates toward zero,
  modelled by `cIntCast`;
* `save_high_score` performs file I/O; its observable effect is recorded in a
  ghost trace field `savedScores` listing the values passed to it, in order.
-/

namespace EndlessDodge

/- Configuration constants (src/game.c lines 28-48). -/

def WINDOW_WIDTH : ℚ := 800
def WINDOW_HEIGHT : ℚ := 600
def TARGET_FPS : ℕ := 60
def FRAME_TIME_MS : ℕ := 1000 / TARGET_FPS
def PLAYER_WIDTH : ℚ := 80
def PLAYER_HEIGHT : ℚ := 20
def PLAYER_SPEED : ℚ := 500
def MAX_OBSTACLES : ℕ := 64
def OBSTACLE_MIN_WIDTH : ℚ := 40
def OBSTACLE_MAX_WIDTH : ℚ := 140
def OBSTACLE_HEIGHT : ℚ := 20
def OBSTACLE_BASE_SPEED : ℚ := 200
def OBSTACLE_SPEED_INCREMENT : ℚ := 3 / 100
def OBSTACLE_BASE_INTERVAL : ℚ := 700
def OBSTACLE_MIN_INTERVAL : ℚ := 140
def OBSTACLE_INTERVAL_DECAY : ℚ := 985 / 1000

/-- Value of `RAND_MAX` (glibc). `rand()` returns a value in `[0, RAND_MAX]`. -/
def RAND_MAX : ℕ := 2147483647

/- Types (src/game.c lines 77-119). -/

inductive GameState where
  | MENU
  | PLAYING
  | PAUSED
  | GAME_OVER
  deriving DecidableEq

structure Obstacle where
  x : ℚ
  y : ℚ
  w : ℚ
  h : ℚ
  speed : ℚ
  active : Bool
  deriving DecidableEq

structure Player where
  x : ℚ
  y : ℚ
  w : ℚ
  h : ℚ
  speed : ℚ
  deriving DecidableEq

structure Game where
  running : Bool
  state : GameState
  player : Player
  obstacles : List Obstacle
  score : ℤ
  highScore : ℤ
  elapsedTime : ℚ
  lastSpawnTicks : ℕ
  spawnIntervalMs : ℚ
  leftPressed : Bool
  rightPressed : Bool
  /-- Ghost trace: arguments of the `save_high_score` calls made so far. -/
  savedScores : List ℤ
  deriving DecidableEq

/-- Keycodes relevant to `handle_key_down` / `handle_key_up`. -/
inductive Key where
  | keyA
  | keyLeft
  | keyD
  | keyRight
  | keyReturn
  | keyKpEnter
  | keyP
  | keyEscape
  | other
  deriving DecidableEq

/-- C cast `(int)` on a rational: truncation toward zero. -/
def cIntCast (q : ℚ) : ℤ :=
  if 0 ≤ q then ⌊q⌋ else -⌊-q⌋

/- Utility functions (src/game.c lines 123-142). -/

/-- `clampf` (src/game.c lines 123-127). -/
def clampf (v lo hi : ℚ) : ℚ :=
  if v < lo then lo
  else if v > hi then hi
  else v

/-- `rects_intersect` (src/game.c lines 130-136): AABB overlap test returning
the negation of the strict-inequality separation test. -/
def rects_intersect (x1 y1 w1 h1 x2 y2 w2 h2 : ℚ) : Bool :=
  !(decide (x1 > x2 + w2) ||
    decide (x1 + w1 < x2) ||
    decide (y1 > y2 + h2) ||
    decide (y1 + h1 < y2))

/-- `rand_range` (src/game.c lines 139-142), with the raw `rand()` value `r`
passed explicitly: returns `lo + (r / RAND_MAX) * (hi - lo)`. -/
def rand_range (r : ℕ) (lo hi : ℚ) : ℚ :=
  lo + ((r : ℚ) / (RAND_MAX : ℚ)) * (hi - lo)

/- Game setup (src/game.c lines 180-204). -/

/-- `reset_obstacles` (src/game.c lines 180-184): deactivate every slot. -/
def reset_obstacles (g : Game) : Game :=
  { g with obstacles := g.obstacles.map (fun o => { o with active := false }) }

/-- `init_player` (src/game.c lines 187-193). -/
def init_player (g : Game) : Game :=
  { g with player :=
      { w := PLAYER_WIDTH
        h := PLAYER_HEIGHT
        x := (WINDOW_WIDTH - PLAYER_WIDTH) / 2
        y := WINDOW_HEIGHT - PLAYER_HEIGHT - 40
        speed := PLAYER_SPEED } }

/-- `reset_gameplay` (src/game.c lines 196-204); `now` is `SDL_GetTicks()`. -/
def reset_gameplay (g : Game) (now : ℕ) : Game :=
  reset_obstacles (init_player
    { g with
        score := 0
        elapsedTime := 0
        spawnIntervalMs := OBSTACLE_BASE_INTERVAL
        lastSpawnTicks := now })

/- Obstacle logic (src/game.c lines 280-352). -/

/-- The first-fit scan of `spawn_obstacle` (src/game.c lines 282-288): index of
the first inactive slot, `none` when every slot is active. -/
def find_free_slot : List Obstacle → Option ℕ
  | [] => none
  | o :: rest =>
      if o.active = false then some 0
      else (find_free_slot rest).map (fun i => i + 1)

/-- The slot-filling part of `spawn_obstacle` (src/game.c lines 294-313),
executed once a free slot `idx` has been found. -/
def spawn_at (g : Game) (rw rx now idx : ℕ) : Game :=
  let w := rand_range rw OBSTACLE_MIN_WIDTH OBSTACLE_MAX_WIDTH
  let maxX := WINDOW_WIDTH - w
  let x := rand_range rx 0 maxX
  let speedBoost := OBSTACLE_SPEED_INCREMENT * g.elapsedTime * OBSTACLE_BASE_SPEED
  let o : Obstacle :=
    { x := x
      y := -OBSTACLE_HEIGHT
      w := w
      h := OBSTACLE_HEIGHT
      speed := OBSTACLE_BASE_SPEED + speedBoost
      active := true }
  let interval := g.spawnIntervalMs * OBSTACLE_INTERVAL_DECAY
  let interval := if interval < OBSTACLE_MIN_INTERVAL then OBSTACLE_MIN_INTERVAL else interval
  { g with
      obstacles := g.obstacles.set idx o
      lastSpawnTicks := now
      spawnIntervalMs := interval }

/-- `spawn_obstacle` (src/game.c lines 280-314); `rw`, `rx` are the two
`rand()` draws (width, x position) and `now` is `SDL_GetTicks()`. -/
def spawn_obstacle (g : Game) (rw rx now : ℕ) : Game :=
  match find_free_slot g.obstacles with
  | none => g
  | some idx => spawn_at g rw rx now idx

/-- Per-slot body of the `update_obstacles` loop (src/game.c lines 318-332):
returns the updated obstacle and the score awarded (10 on bottom-out, else 0). -/
def step_obstacle (dt : ℚ) (o : Obstacle) : Obstacle × ℤ :=
  if o.active = false then (o, 0)
  else
    let y2 := o.y + o.speed * dt
    if y2 > WINDOW_HEIGHT then ({ o with y := y2, active := false }, 10)
    else ({ o with y := y2 }, 0)

/-- `update_obstacles` (src/game.c lines 317-333). -/
def update_obstacles (g : Game) (dt : ℚ) : Game :=
  let stepped := g.obstacles.map (step_obstacle dt)
  { g with
      obstacles := stepped.map Prod.fst
      score := g.score + (stepped.map Prod.snd).sum }

/-- `check_collisions` (src/game.c lines 336-352). -/
def check_collisions (g : Game) : Bool :=
  g.obstacles.any (fun o =>
    o.active &&
      rects_intersect g.player.x g.player.y g.player.w g.player.h o.x o.y o.w o.h)

/- Input handling (src/game.c lines 356-402). -/

/-- `handle_key_down` (src/game.c lines 356-387); `now` is `SDL_GetTicks()`
as read inside `reset_gameplay`. -/
def handle_key_down (g : Game) (k : Key) (now : ℕ) : Game :=
  match k with
  | Key.keyA | Key.keyLeft => { g with leftPressed := true }
  | Key.keyD | Key.keyRight => { g with rightPressed := true }
  | Key.keyReturn | Key.keyKpEnter =>
      if g.state = GameState.MENU ∨ g.state = GameState.GAME_OVER then
        { reset_gameplay g now with state := GameState.PLAYING }
      else g
  | Key.keyP =>
      if g.state = GameState.PLAYING then { g with state := GameState.PAUSED }
      else if g.state = GameState.PAUSED then { g with state := GameState.PLAYING }
      else g
  | Key.keyEscape => { g with running := false }
  | Key.other => g

/-- `handle_key_up` (src/game.c lines 389-402). -/
def handle_key_up (g : Game) (k : Key) : Game :=
  match k with
  | Key.keyA | Key.keyLeft => { g with leftPressed := false }
  | Key.keyD | Key.keyRight => { g with rightPressed := false }
  | _ => g

/- Game update (src/game.c lines 427-506). -/

/-- `update_player` (src/game.c lines 427-444). -/
def update_player (g : Game) (dt : ℚ) : Game :=
  let dir : ℚ := (if g.leftPressed then -1 else 0) + (if g.rightPressed then 1 else 0)
  let x := g.player.x + dir * g.player.speed * dt
  { g with player := { g.player with x := clampf x 0 (WINDOW_WIDTH - g.player.w) } }

/-- The movement/scoring/spawning part of `update_game` (src/game.c lines
483-495), executed when the state is PLAYING, before the collision check. -/
def tick_moves (g : Game) (dt : ℚ) (now rw rx : ℕ) : Game :=
  let g1 := { g with elapsedTime := g.elapsedTime + dt }
  let g2 := { g1 with score := g1.score + cIntCast (dt * 20) }
  let g3 := update_player g2 dt
  let g4 := update_obstacles g3 dt
  if ((now - g4.lastSpawnTicks : ℕ) : ℚ) ≥ g4.spawnIntervalMs then
    spawn_obstacle g4 rw rx now
  else g4

/-- The game-over resolution of `update_game` (src/game.c lines 498-505):
on collision, enter GAME_OVER and conditionally promote + persist the
high score. -/
def resolve_game_over (g : Game) : Game :=
  if check_collisions g then
    let g2 := { g with state := GameState.GAME_OVER }
    if g2.score > g2.highScore then
      { g2 with
          highScore := g2.score
          savedScores := g2.savedScores ++ [g2.score] }
    else g2
  else g

/-- `update_game` (src/game.c lines 478-506). -/
def update_game (g : Game) (dt : ℚ) (now rw rx : ℕ) : Game :=
  if g.state ≠ GameState.PLAYING then g
  else resolve_game_over (tick_moves g dt now rw rx)

/- Concrete sample states used by witnesses. -/

def inactive_obstacle : Obstacle :=
  { x := 0, y := 0, w := 40, h := 20, speed := 0, active := false }

def active_obstacle : Obstacle :=
  { x := 0, y := 0, w := 40, h := 20, speed := 200, active := true }

/-- The player exactly as `init_player` produces it
(`x = 360`, `y = 540`, `w = 80`, `h = 20`, `speed = 500`). -/
def initial_player : Player :=
  { x := (WINDOW_WIDTH - PLAYER_WIDTH) / 2
    y := WINDOW_HEIGHT - PLAYER_HEIGHT - 40
    w := PLAYER_WIDTH
    h := PLAYER_HEIGHT
    speed := PLAYER_SPEED }

/-- A freshly initialized game sitting in the MENU state. -/
def base_game : Game :=
  { running := true
    state := GameState.MENU
    player := initial_player
    obstacles := List.replicate 64 inactive_obstacle
    score := 0
    highScore := 0
    elapsedTime := 0
    lastSpawnTicks := 0
    spawnIntervalMs := OBSTACLE_BASE_INTERVAL
    leftPressed := false
    rightPressed := false
    savedScores := [] }

/-- Scenario 4 state: PLAYING, player at the left wall, left held. -/
def scenario4_game : Game :=
  { base_game with
      state := GameState.PLAYING
      leftPressed := true
      player := { initial_player with x := 0 } }

/-- A game whose 64 obstacle slots are all active. -/
def saturated_game : Game :=
  { base_game with obstacles := List.replicate 64 active_obstacle }

/- Helper lemmas. -/

lemma clampf_mem (v lo hi : ℚ) (h : lo ≤ hi) :
    lo ≤ clampf v lo hi ∧ clampf v lo hi ≤ hi := by
  unfold clampf
  split_ifs <;> constructor <;> linarith

lemma find_free_slot_none_of_all_active (l : List Obstacle)
    (h : ∀ o ∈ l, o.active = true) : find_free_slot l = none := by
  induction l with
  | nil => rfl
  | cons o rest ih =>
      have ho : o.active = true := h o (by simp)
      have hrest := ih (fun o' ho' => h o' (by simp [ho']))
      simp [find_free_slot, ho, hrest]

/- Frame-preservation lemmas: which fields each operation leaves unchanged. -/

@[simp] lemma update_player_score (g : Game) (dt : ℚ) :
    (update_player g dt).score = g.score := rfl

@[simp] lemma update_player_obstacles (g : Game) (dt : ℚ) :
    (update_player g dt).obstacles = g.obstacles := rfl

@[simp] lemma update_player_highScore (g : Game) (dt : ℚ) :
    (update_player g dt).highScore = g.highScore := rfl

@[simp] lemma update_player_savedScores (g : Game) (dt : ℚ) :
    (update_player g dt).savedScores = g.savedScores := rfl

@[simp] lemma update_player_state (g : Game) (dt : ℚ) :
    (update_player g dt).state = g.state := rfl

@[simp] lemma update_player_lastSpawnTicks (g : Game) (dt : ℚ) :
    (update_player g dt).lastSpawnTicks = g.lastSpawnTicks := rfl

@[simp] lemma update_player_spawnIntervalMs (g : Game) (dt : ℚ) :
    (update_player g dt).spawnIntervalMs = g.spawnIntervalMs := rfl

@[simp] lemma update_obstacles_highScore (g : Game) (dt : ℚ) :
    (update_obstacles g dt).highScore = g.highScore := rfl

@[simp] lemma update_obstacles_savedScores (g : Game) (dt : ℚ) :
    (update_obstacles g dt).savedScores = g.savedScores := rfl

@[simp] lemma update_obstacles_state (g : Game) (dt : ℚ) :
    (update_obstacles g dt).state = g.state := rfl

@[simp] lemma update_obstacles_player (g : Game) (dt : ℚ) :
    (update_obstacles g dt).player = g.player := rfl

@[simp] lemma spawn_at_score (g : Game) (rw rx now idx : ℕ) :
    (spawn_at g rw rx now idx).score = g.score := rfl

@[simp] lemma spawn_at_highScore (g : Game) (rw rx now idx : ℕ) :
    (spawn_at g rw rx now idx).highScore = g.highScore := rfl

@[simp] lemma spawn_at_savedScores (g : Game) (rw rx now idx : ℕ) :
    (spawn_at g rw rx now idx).savedScores = g.savedScores := rfl

@[simp] lemma spawn_at_state (g : Game) (rw rx now idx : ℕ) :
    (spawn_at g rw rx now idx).state = g.state := rfl

@[simp] lemma spawn_obstacle_score (g : Game) (rw rx now : ℕ) :
    (spawn_obstacle g rw rx now).score = g.score := by
  unfold spawn_obstacle
  cases find_free_slot g.obstacles <;> rfl

@[simp] lemma spawn_obstacle_highScore (g : Game) (rw rx now : ℕ) :
    (spawn_obstacle g rw rx now).highScore = g.highScore := by
  unfold spawn_obstacle
  cases find_free_slot g.obstacles <;> rfl

@[simp] lemma spawn_obstacle_savedScores (g : Game) (rw rx now : ℕ) :
    (spawn_obstacle g rw rx now).savedScores = g.savedScores := by
  unfold spawn_obstacle
  cases find_free_slot g.obstacles <;> rfl

@[simp] lemma spawn_obstacle_state (g : Game) (rw rx now : ℕ) :
    (spawn_obstacle g rw rx now).state = g.state := by
  unfold spawn_obstacle
  cases find_free_slot g.obstacles <;> rfl

@[simp] lemma resolve_game_over_score (g : Game) :
    (resolve_game_over g).score = g.score := by
  unfold resolve_game_over
  split_ifs with h1
  · dsimp only
    split_ifs <;> rfl
  · rfl

lemma tick_moves_highScore (g : Game) (dt : ℚ) (now rw rx : ℕ) :
    (tick_moves g dt now rw rx).highScore = g.highScore := by
  unfold tick_moves
  dsimp only
  split <;> simp

lemma tick_moves_savedScores (g : Game) (dt : ℚ) (now rw rx : ℕ) :
    (tick_moves g dt now rw rx).savedScores = g.savedScores := by
  unfold tick_moves
  dsimp only
  split <;> simp

lemma update_game_playing (g : Game) (dt : ℚ) (now rw rx : ℕ)
    (hs : g.state = GameState.PLAYING) :
    update_game g dt now rw rx = resolve_game_over (tick_moves g dt now rw rx) := by
  unfold update_game
  rw [if_neg (by simp [hs])]

/- List index lemmas for the pool array. -/

lemma find_free_slot_lt_length : ∀ (l : List Obstacle) (i : ℕ),
    find_free_slot l = some i → i < l.length
  | [], i, h => by simp [find_free_slot] at h
  | o :: rest, i, h => by
      unfold find_free_slot at h
      by_cases ho : o.active = false
      · rw [if_pos ho] at h
        injection h with h
        subst h
        simp
      · rw [if_neg ho] at h
        cases hf : find_free_slot rest with
        | none => rw [hf] at h; simp at h
        | some j =>
            rw [hf] at h
            simp only [Option.map_some'] at h
            injection h with h
            subst h
            have := find_free_slot_lt_length rest j hf
            simpa using Nat.succ_lt_succ this

lemma list_set_get_self {α : Type} : ∀ (l : List α) (i : ℕ) (a : α),
    i < l.length → (l.set i a)[i]? = some a
  | [], i, a, h => by simp at h
  | x :: xs, 0, a, _ => by simp
  | x :: xs, i + 1, a, h => by
      simpa using list_set_get_self xs i a (by simpa using h)

lemma list_set_get_ne {α : Type} : ∀ (l : List α) (i j : ℕ) (a : α),
    j ≠ i → (l.set i a)[j]? = l[j]?
  | [], _, _, _, _ => by simp
  | x :: xs, 0, 0, a, h => absurd rfl h
  | x :: xs, 0, j + 1, a, _ => by simp
  | x :: xs, i + 1, 0, a, _ => by simp
  | x :: xs, i + 1, j + 1, a, h => by
      simpa using list_set_get_ne xs i j a (by omega)

/- C1. -/

/-- C1 counterexample: the claim says rectangles that only share a boundary are
classified as non-intersecting, but at the boundary input where
`player.x = obstacle.x + obstacle.w` (player `(100,540,80,20)`, obstacle
`(60,540,40,20)`) `rects_intersect` returns `true`. -/
theorem C1_counterexample :
    rects_intersect 100 540 80 20 60 540 40 20 = true := by
  with_unfolding_all decide

/-- C1 (amended): `rects_intersect` is the closed-interval AABB overlap test:
it returns `true` exactly when the rectangles overlap or merely touch, so
boundary equality counts as intersecting (the separation comparisons are
strict, so boundary contact never separates). -/
theorem C1_closed_overlap (x1 y1 w1 h1 x2 y2 w2 h2 : ℚ) :
    rects_intersect x1 y1 w1 h1 x2 y2 w2 h2 = true ↔
      (x1 ≤ x2 + w2 ∧ x2 ≤ x1 + w1 ∧ y1 ≤ y2 + h2 ∧ y2 ≤ y1 + h1) := by
  simp only [rects_intersect, Bool.not_eq_true', Bool.or_eq_false_iff,
    decide_eq_false_iff_not, not_lt]
  constructor
  · rintro ⟨⟨⟨h1', h2'⟩, h3'⟩, h4'⟩
    exact ⟨h1', h2', h3', h4'⟩
  · rintro ⟨h1', h2', h3', h4'⟩
    exact ⟨⟨⟨h1', h2'⟩, h3'⟩, h4'⟩

/- C4. -/

/-- C4: after `update_player`, the player's x coordinate lies in
`[0, WINDOW_WIDTH - player.w]`, for every `dt ≥ 0` and every combination of
the held-direction flags; moreover in the Scenario 4 state (player at `x = 0`,
left held, `dt = 1`, speed 500) the player stays at `x = 0`. -/
theorem C4_player_x_bounds (g : Game) (dt : ℚ) (hdt : 0 ≤ dt)
    (hw : g.player.w ≤ WINDOW_WIDTH) :
    (0 ≤ (update_player g dt).player.x ∧
      (update_player g dt).player.x ≤ WINDOW_WIDTH - g.player.w) ∧
    (update_player scenario4_game 1).player.x = 0 := by
  constructor
  · exact clampf_mem _ 0 (WINDOW_WIDTH - g.player.w) (by linarith)
  · with_unfolding_all decide

/-- C4 witness: the bounds instantiated at the Scenario 4 state itself. -/
theorem C4_witness :
    (0 ≤ (update_player scenario4_game 1).player.x ∧
      (update_player scenario4_game 1).player.x ≤
        WINDOW_WIDTH - scenario4_game.player.w) ∧
    (update_player scenario4_game 1).player.x = 0 :=
  C4_player_x_bounds scenario4_game 1 (by norm_num) (by with_unfolding_all decide)

/- C5. -/

/-- C5: when every one of the 64 pool slots is active, `spawn_obstacle`
returns the game unchanged: no slot is claimed or modified, the spawn interval
and spawn timestamp are untouched, and no error is signalled. -/
theorem C5_saturated_spawn_noop (g : Game) (rw rx now : ℕ)
    (hlen : g.obstacles.length = MAX_OBSTACLES)
    (hall : ∀ o ∈ g.obstacles, o.active = true) :
    spawn_obstacle g rw rx now = g := by
  unfold spawn_obstacle
  rw [find_free_slot_none_of_all_active g.obstacles hall]

/-- C5 witness: a concrete saturated pool of 64 active obstacles is left
untouched by a spawn call. -/
theorem C5_witness :
    (saturated_game.obstacles.length = MAX_OBSTACLES ∧
      ∀ o ∈ saturated_game.obstacles, o.active = true) ∧
    spawn_obstacle saturated_game 123 456 789 = saturated_game :=
  ⟨⟨by decide, by decide⟩,
    C5_saturated_spawn_noop saturated_game 123 456 789 (by decide) (by decide)⟩

/- C6. -/

/-- C6: a spawn call never increases the spawn interval and never lets it drop
below `OBSTACLE_MIN_INTERVAL`: assuming the interval is at least the minimum
beforehand (it starts at 700 and this is preserved), after the call
`OBSTACLE_MIN_INTERVAL ≤ spawnIntervalMs ≤ previous spawnIntervalMs`, and a
successful spawn sets it to `max (0.985 * previous) OBSTACLE_MIN_INTERVAL`. -/
theorem C6_interval_decay (g : Game) (rw rx now : ℕ)
    (h : OBSTACLE_MIN_INTERVAL ≤ g.spawnIntervalMs) :
    OBSTACLE_MIN_INTERVAL ≤ (spawn_obstacle g rw rx now).spawnIntervalMs ∧
      (spawn_obstacle g rw rx now).spawnIntervalMs ≤ g.spawnIntervalMs := by
  have h0 : (0 : ℚ) ≤ g.spawnIntervalMs :=
    le_trans (by norm_num [OBSTACLE_MIN_INTERVAL]) h
  have hdec : g.spawnIntervalMs * OBSTACLE_INTERVAL_DECAY ≤ g.spawnIntervalMs :=
    mul_le_of_le_one_right h0 (by norm_num [OBSTACLE_INTERVAL_DECAY])
  unfold spawn_obstacle
  cases hf : find_free_slot g.obstacles with
  | none => exact ⟨h, le_refl _⟩
  | some idx =>
      simp only [spawn_at]
      split_ifs with hlt
      · exact ⟨le_refl _, h⟩
      · exact ⟨le_of_not_lt hlt, hdec⟩

/-- C6 witness: spawning on the fresh game (interval 700) keeps the interval
within `[OBSTACLE_MIN_INTERVAL, 700]`. -/
theorem C6_witness :
    OBSTACLE_MIN_INTERVAL ≤ base_game.spawnIntervalMs ∧
    (OBSTACLE_MIN_INTERVAL ≤ (spawn_obstacle base_game 0 0 5).spawnIntervalMs ∧
      (spawn_obstacle base_game 0 0 5).spawnIntervalMs ≤ base_game.spawnIntervalMs) :=
  ⟨by with_unfolding_all decide,
    C6_interval_decay base_game 0 0 5 (by with_unfolding_all decide)⟩

/- C2. -/

/-- A game whose run values have been fully reset with spawn timestamp `now`:
score 0, elapsed time 0, base spawn interval, player re-initialized, and every
pool slot inactive. -/
def run_reset (g : Game) (now : ℕ) : Prop :=
  g.score = 0 ∧ g.elapsedTime = 0 ∧
    g.spawnIntervalMs = OBSTACLE_BASE_INTERVAL ∧
    g.lastSpawnTicks = now ∧ g.player = initial_player ∧
    ∀ o ∈ g.obstacles, o.active = false

lemma reset_gameplay_run_reset (g : Game) (now : ℕ) :
    run_reset (reset_gameplay g now) now := by
  refine ⟨rfl, rfl, rfl, rfl, rfl, ?_⟩
  intro o ho
  simp only [reset_gameplay, reset_obstacles, init_player, List.mem_map] at ho
  obtain ⟨o', _, rfl⟩ := ho
  rfl

/-- C2: the key-event state machine admits exactly the listed transitions:
confirm in MENU or GAME_OVER enters PLAYING with a full run reset; confirm in
PLAYING or PAUSED is a no-op; pause toggles PLAYING and PAUSED and is a no-op
in MENU and GAME_OVER; the keypad-enter key behaves exactly like return; and
every other key event leaves the state unchanged. -/
theorem C2_fsm_transitions (g : Game) (now : ℕ) :
    ((g.state = GameState.MENU ∨ g.state = GameState.GAME_OVER) →
        (handle_key_down g Key.keyReturn now).state = GameState.PLAYING ∧
          run_reset (handle_key_down g Key.keyReturn now) now) ∧
    (g.state = GameState.PLAYING → handle_key_down g Key.keyReturn now = g) ∧
    (g.state = GameState.PAUSED → handle_key_down g Key.keyReturn now = g) ∧
    (g.state = GameState.PLAYING →
        handle_key_down g Key.keyP now = { g with state := GameState.PAUSED }) ∧
    (g.state = GameState.PAUSED →
        handle_key_down g Key.keyP now = { g with state := GameState.PLAYING }) ∧
    (g.state = GameState.MENU → handle_key_down g Key.keyP now = g) ∧
    (g.state = GameState.GAME_OVER → handle_key_down g Key.keyP now = g) ∧
    (handle_key_down g Key.keyKpEnter now = handle_key_down g Key.keyReturn now) ∧
    (∀ k, k ≠ Key.keyReturn → k ≠ Key.keyKpEnter → k ≠ Key.keyP →
        (handle_key_down g k now).state = g.state) := by
  refine ⟨?_, ?_, ?_, ?_, ?_, ?_, ?_, rfl, ?_⟩
  · intro hmg
    constructor
    · simp only [handle_key_down]
      rw [if_pos hmg]
    · have : handle_key_down g Key.keyReturn now =
          { reset_gameplay g now with state := GameState.PLAYING } := by
        simp only [handle_key_down]
        rw [if_pos hmg]
      rw [this]
      have h := reset_gameplay_run_reset g now
      exact ⟨h.1, h.2.1, h.2.2.1, h.2.2.2.1, h.2.2.2.2.1, h.2.2.2.2.2⟩
  · intro hs
    simp only [handle_key_down]
    rw [if_neg (by simp [hs])]
  · intro hs
    simp only [handle_key_down]
    rw [if_neg (by simp [hs])]
  · intro hs
    simp only [handle_key_down]
    rw [if_pos hs]
  · intro hs
    simp only [handle_key_down]
    rw [if_neg (by simp [hs]), if_pos hs]
  · intro hs
    simp only [handle_key_down]
    rw [if_neg (by simp [hs]), if_neg (by simp [hs])]
  · intro hs
    simp only [handle_key_down]
    rw [if_neg (by simp [hs]), if_neg (by simp [hs])]
  · intro k h1 h2 h3
    cases k <;> first
      | rfl
      | exact absurd rfl h1
      | exact absurd rfl h2
      | exact absurd rfl h3

/-- C2 witness: pressing return in the fresh MENU game enters PLAYING with a
full run reset. -/
theorem C2_witness :
    (handle_key_down base_game Key.keyReturn 7).state = GameState.PLAYING ∧
      run_reset (handle_key_down base_game Key.keyReturn 7) 7 :=
  (C2_fsm_transitions base_game 7).1 (Or.inl rfl)

/- C3. -/

/-- Sample state for C3/Scenario 5: PLAYING with an obstacle overlapping the
player, current score 5, stored high score 3. -/
def collision_game : Game :=
  { base_game with
      state := GameState.PLAYING
      score := 5
      highScore := 3
      obstacles :=
        { active_obstacle with x := 360, y := 540, speed := 0 } ::
          List.replicate 63 inactive_obstacle }

/-- C3: if a collision is detected on a PLAYING tick (after movement, scoring,
obstacle advance and spawning), the state becomes GAME_OVER; the final score is
the tick's score; the high score is promoted exactly when that score strictly
exceeds the stored high score, in which case the persistence save is invoked
exactly once with the new value, and otherwise neither the high score nor the
persistence trace changes. -/
theorem C3_collision_gameover (g : Game) (dt : ℚ) (now rw rx : ℕ)
    (hs : g.state = GameState.PLAYING)
    (hc : check_collisions (tick_moves g dt now rw rx) = true) :
    (update_game g dt now rw rx).state = GameState.GAME_OVER ∧
    (update_game g dt now rw rx).score = (tick_moves g dt now rw rx).score ∧
    ((tick_moves g dt now rw rx).score > g.highScore →
        (update_game g dt now rw rx).highScore = (tick_moves g dt now rw rx).score ∧
          (update_game g dt now rw rx).savedScores =
            g.savedScores ++ [(tick_moves g dt now rw rx).score]) ∧
    ((tick_moves g dt now rw rx).score ≤ g.highScore →
        (update_game g dt now rw rx).highScore = g.highScore ∧
          (update_game g dt now rw rx).savedScores = g.savedScores) := by
  have hhs : (tick_moves g dt now rw rx).highScore = g.highScore :=
    tick_moves_highScore g dt now rw rx
  have hsv : (tick_moves g dt now rw rx).savedScores = g.savedScores :=
    tick_moves_savedScores g dt now rw rx
  rw [update_game_playing g dt now rw rx hs]
  unfold resolve_game_over
  rw [if_pos hc]
  dsimp only
  split_ifs with hgt
  · refine ⟨rfl, rfl, fun _ => ⟨rfl, by rw [hsv]⟩, fun hle => absurd ?_ (not_lt.mpr hle)⟩
    rw [hhs] at hgt
    exact hgt
  · rw [hhs] at hgt
    exact ⟨rfl, rfl, fun hgt' => absurd hgt' hgt, fun _ => ⟨hhs, hsv⟩⟩

/-- C3 witness: in `collision_game` a zero-dt tick detects the overlap, enters
GAME_OVER, promotes the high score to 5 and records exactly one save of 5. -/
theorem C3_witness :
    (update_game collision_game 0 0 0 0).state = GameState.GAME_OVER ∧
    (update_game collision_game 0 0 0 0).score = (tick_moves collision_game 0 0 0 0).score ∧
    ((tick_moves collision_game 0 0 0 0).score > collision_game.highScore →
        (update_game collision_game 0 0 0 0).highScore =
            (tick_moves collision_game 0 0 0 0).score ∧
          (update_game collision_game 0 0 0 0).savedScores =
            collision_game.savedScores ++ [(tick_moves collision_game 0 0 0 0).score]) ∧
    ((tick_moves collision_game 0 0 0 0).score ≤ collision_game.highScore →
        (update_game collision_game 0 0 0 0).highScore = collision_game.highScore ∧
          (update_game collision_game 0 0 0 0).savedScores = collision_game.savedScores) :=
  C3_collision_gameover collision_game 0 0 0 0 rfl (by with_unfolding_all decide)

/- C7 and C8. -/

lemma spawn_obstacle_eq_spawn_at (g : Game) (rw rx now idx : ℕ)
    (hfind : find_free_slot g.obstacles = some idx) :
    spawn_obstacle g rw rx now = spawn_at g rw rx now idx := by
  unfold spawn_obstacle
  rw [hfind]

/-- The obstacle record written by a successful spawn of `spawn_at`. -/
def new_obstacle (g : Game) (rw rx : ℕ) : Obstacle :=
  { x := rand_range rx 0
        (WINDOW_WIDTH - rand_range rw OBSTACLE_MIN_WIDTH OBSTACLE_MAX_WIDTH)
    y := -OBSTACLE_HEIGHT
    w := rand_range rw OBSTACLE_MIN_WIDTH OBSTACLE_MAX_WIDTH
    h := OBSTACLE_HEIGHT
    speed := OBSTACLE_BASE_SPEED +
      OBSTACLE_SPEED_INCREMENT * g.elapsedTime * OBSTACLE_BASE_SPEED
    active := true }

lemma spawn_at_obstacles (g : Game) (rw rx now idx : ℕ) :
    (spawn_at g rw rx now idx).obstacles =
      g.obstacles.set idx (new_obstacle g rw rx) := rfl

lemma step_obstacle_speed (dt : ℚ) (o : Obstacle) :
    (step_obstacle dt o).1.speed = o.speed := by
  unfold step_obstacle
  dsimp only
  split_ifs <;> rfl

lemma map_speed_step (dt : ℚ) : ∀ l : List Obstacle,
    ((l.map (step_obstacle dt)).map Prod.fst).map Obstacle.speed =
      l.map Obstacle.speed
  | [] => rfl
  | o :: rest => by
      simp only [List.map_cons, List.cons.injEq]
      exact ⟨step_obstacle_speed dt o, map_speed_step dt rest⟩

lemma update_obstacles_speeds (g : Game) (dt : ℚ) :
    (update_obstacles g dt).obstacles.map Obstacle.speed =
      g.obstacles.map Obstacle.speed :=
  map_speed_step dt g.obstacles

/-- C7: the speed of a spawned obstacle is assigned at spawn time by the
formula `BASE_SPEED + BASE_SPEED * SPEED_INCREMENT_RATE * elapsedTime`
evaluated at the spawn moment; a spawn touches no other slot; the formula is
non-decreasing in the elapsed time; and advancing the obstacles never changes
any obstacle's speed. -/
theorem C7_speed_at_spawn (g : Game) (rw rx now idx : ℕ)
    (hfind : find_free_slot g.obstacles = some idx) :
    (∃ o, (spawn_obstacle g rw rx now).obstacles[idx]? = some o ∧
        o.speed = OBSTACLE_BASE_SPEED +
          OBSTACLE_BASE_SPEED * OBSTACLE_SPEED_INCREMENT * g.elapsedTime ∧
        o.active = true) ∧
    (∀ j, j ≠ idx →
        (spawn_obstacle g rw rx now).obstacles[j]? = g.obstacles[j]?) ∧
    (∀ e1 e2 : ℚ, e1 ≤ e2 →
        OBSTACLE_BASE_SPEED + OBSTACLE_BASE_SPEED * OBSTACLE_SPEED_INCREMENT * e1 ≤
          OBSTACLE_BASE_SPEED + OBSTACLE_BASE_SPEED * OBSTACLE_SPEED_INCREMENT * e2) ∧
    (∀ (g2 : Game) (dt : ℚ),
        (update_obstacles g2 dt).obstacles.map Obstacle.speed =
          g2.obstacles.map Obstacle.speed) := by
  have hlt : idx < g.obstacles.length := find_free_slot_lt_length g.obstacles idx hfind
  rw [spawn_obstacle_eq_spawn_at g rw rx now idx hfind]
  refine ⟨?_, ?_, ?_, fun g2 dt => update_obstacles_speeds g2 dt⟩
  · refine ⟨new_obstacle g rw rx, ?_, ?_, rfl⟩
    · rw [spawn_at_obstacles]
      exact list_set_get_self g.obstacles idx _ hlt
    · show OBSTACLE_BASE_SPEED + OBSTACLE_SPEED_INCREMENT * g.elapsedTime * OBSTACLE_BASE_SPEED =
        OBSTACLE_BASE_SPEED + OBSTACLE_BASE_SPEED * OBSTACLE_SPEED_INCREMENT * g.elapsedTime
      ring
  · intro j hj
    rw [spawn_at_obstacles]
    exact list_set_get_ne g.obstacles idx j _ hj
  · intro e1 e2 hee
    have hc : (0 : ℚ) ≤ OBSTACLE_BASE_SPEED * OBSTACLE_SPEED_INCREMENT := by
      norm_num [OBSTACLE_BASE_SPEED, OBSTACLE_SPEED_INCREMENT]
    have := mul_le_mul_of_nonneg_left hee hc
    linarith

/-- C7 witness: spawning into the fresh game (free slot 0, elapsed time 0)
writes speed `200 = 200 + 200 * 0.03 * 0` into slot 0 and nothing else. -/
theorem C7_witness :
    (∃ o, (spawn_obstacle base_game 11 22 33).obstacles[0]? = some o ∧
        o.speed = OBSTACLE_BASE_SPEED +
          OBSTACLE_BASE_SPEED * OBSTACLE_SPEED_INCREMENT * base_game.elapsedTime ∧
        o.active = true) ∧
    (∀ j, j ≠ 0 →
        (spawn_obstacle base_game 11 22 33).obstacles[j]? = base_game.obstacles[j]?) ∧
    (∀ e1 e2 : ℚ, e1 ≤ e2 →
        OBSTACLE_BASE_SPEED + OBSTACLE_BASE_SPEED * OBSTACLE_SPEED_INCREMENT * e1 ≤
          OBSTACLE_BASE_SPEED + OBSTACLE_BASE_SPEED * OBSTACLE_SPEED_INCREMENT * e2) ∧
    (∀ (g2 : Game) (dt : ℚ),
        (update_obstacles g2 dt).obstacles.map Obstacle.speed =
          g2.obstacles.map Obstacle.speed) :=
  C7_speed_at_spawn base_game 11 22 33 0 (by decide)

lemma rand_range_mem (r : ℕ) (lo hi : ℚ) (hr : r ≤ RAND_MAX) (hle : lo ≤ hi) :
    lo ≤ rand_range r lo hi ∧ rand_range r lo hi ≤ hi := by
  have hRM : (0 : ℚ) < ((RAND_MAX : ℕ) : ℚ) := by norm_num [RAND_MAX]
  have ht0 : (0 : ℚ) ≤ (r : ℚ) / ((RAND_MAX : ℕ) : ℚ) := by positivity
  have ht1 : (r : ℚ) / ((RAND_MAX : ℕ) : ℚ) ≤ 1 := by
    rw [div_le_one hRM]
    exact_mod_cast hr
  have hd : (0 : ℚ) ≤ hi - lo := by linarith
  unfold rand_range
  constructor
  · nlinarith [mul_nonneg ht0 hd]
  · nlinarith [mul_le_of_le_one_left hd ht1]

/-- C8: every successfully spawned obstacle has width in
`[OBSTACLE_MIN_WIDTH, OBSTACLE_MAX_WIDTH]`, lies fully on-screen horizontally
(`0 ≤ x` and `x + width ≤ WINDOW_WIDTH`), and starts at `y = -height`, for
every pair of values the random source can produce. -/
theorem C8_spawn_geometry (g : Game) (rw rx now idx : ℕ)
    (hrw : rw ≤ RAND_MAX) (hrx : rx ≤ RAND_MAX)
    (hfind : find_free_slot g.obstacles = some idx) :
    ∃ o : Obstacle, (spawn_obstacle g rw rx now).obstacles[idx]? = some o ∧
      OBSTACLE_MIN_WIDTH ≤ o.w ∧ o.w ≤ OBSTACLE_MAX_WIDTH ∧
      0 ≤ o.x ∧ o.x + o.w ≤ WINDOW_WIDTH ∧ o.y = -o.h := by
  have hlt : idx < g.obstacles.length := find_free_slot_lt_length g.obstacles idx hfind
  rw [spawn_obstacle_eq_spawn_at g rw rx now idx hfind]
  refine ⟨new_obstacle g rw rx, ?_, ?_⟩
  · rw [spawn_at_obstacles]
    exact list_set_get_self g.obstacles idx _ hlt
  · have hw := rand_range_mem rw OBSTACLE_MIN_WIDTH OBSTACLE_MAX_WIDTH hrw
      (by norm_num [OBSTACLE_MIN_WIDTH, OBSTACLE_MAX_WIDTH])
    have hwmax : rand_range rw OBSTACLE_MIN_WIDTH OBSTACLE_MAX_WIDTH ≤ WINDOW_WIDTH := by
      have : OBSTACLE_MAX_WIDTH ≤ WINDOW_WIDTH := by
        norm_num [OBSTACLE_MAX_WIDTH, WINDOW_WIDTH]
      linarith [hw.2]
    have hx := rand_range_mem rx 0
      (WINDOW_WIDTH - rand_range rw OBSTACLE_MIN_WIDTH OBSTACLE_MAX_WIDTH) hrx
      (by linarith)
    exact ⟨hw.1, hw.2, hx.1, by show _ + _ ≤ _; dsimp only [new_obstacle]; linarith [hx.2], rfl⟩

/-- C8 witness: the geometry bounds instantiated on the fresh game with the
extreme random draw `RAND_MAX` for the width and `0` for the position. -/
theorem C8_witness :
    (RAND_MAX ≤ RAND_MAX ∧ 0 ≤ RAND_MAX ∧
      find_free_slot base_game.obstacles = some 0) ∧
    ∃ o : Obstacle, (spawn_obstacle base_game RAND_MAX 0 33).obstacles[0]? = some o ∧
      OBSTACLE_MIN_WIDTH ≤ o.w ∧ o.w ≤ OBSTACLE_MAX_WIDTH ∧
      0 ≤ o.x ∧ o.x + o.w ≤ WINDOW_WIDTH ∧ o.y = -o.h :=
  ⟨⟨le_refl _, Nat.zero_le _, by decide⟩,
    C8_spawn_geometry base_game RAND_MAX 0 33 0 (le_refl _) (Nat.zero_le _) (by decide)⟩

/- C9 and C10. -/

/-- Number of active obstacles that bottom out (cross `WINDOW_HEIGHT`) during
a tick of length `dt`; each awards the fixed +10 dodge bonus in
`update_obstacles`. -/
def dodge_count (g : Game) (dt : ℚ) : ℕ :=
  (g.obstacles.filter (fun o =>
      o.active && decide (o.y + o.speed * dt > WINDOW_HEIGHT))).length

lemma step_sum (dt : ℚ) : ∀ l : List Obstacle,
    ((l.map (step_obstacle dt)).map Prod.snd).sum =
      10 * ((l.filter (fun o =>
        o.active && decide (o.y + o.speed * dt > WINDOW_HEIGHT))).length : ℤ)
  | [] => by simp
  | o :: rest => by
      have ih := step_sum dt rest
      simp only [List.map_cons, List.sum_cons, List.filter_cons]
      by_cases hp : (o.active && decide (o.y + o.speed * dt > WINDOW_HEIGHT)) = true
      · rw [Bool.and_eq_true] at hp
        have ha : o.active = true := hp.1
        have hy : o.y + o.speed * dt > WINDOW_HEIGHT := of_decide_eq_true hp.2
        have hp' : (o.active && decide (o.y + o.speed * dt > WINDOW_HEIGHT)) = true := by
          rw [Bool.and_eq_true]
          exact ⟨hp.1, hp.2⟩
        have hsnd : (step_obstacle dt o).2 = 10 := by
          unfold step_obstacle
          rw [ha]
          dsimp only
          rw [if_neg (by simp), if_pos hy]
        rw [hsnd, if_pos hp']
        simp only [List.length_cons]
        rw [ih]
        push_cast
        ring
      · have hsnd : (step_obstacle dt o).2 = 0 := by
          unfold step_obstacle
          by_cases ha : o.active = false
          · rw [if_pos ha]
          · have ha' : o.active = true := by
              cases h : o.active
              · exact absurd h ha
              · rfl
            have hy : ¬(o.y + o.speed * dt > WINDOW_HEIGHT) := by
              intro hy
              exact hp (by rw [ha']; simp [hy])
            rw [if_neg ha]
            dsimp only
            rw [if_neg hy]
        rw [hsnd, if_neg hp]
        rw [ih]
        ring

lemma update_obstacles_score (g : Game) (dt : ℚ) :
    (update_obstacles g dt).score = g.score + 10 * (dodge_count g dt : ℤ) := by
  unfold update_obstacles dodge_count
  dsimp only
  rw [step_sum dt g.obstacles]

lemma tick_moves_score (g : Game) (dt : ℚ) (now rw rx : ℕ) :
    (tick_moves g dt now rw rx).score =
      g.score + cIntCast (dt * 20) + 10 * (dodge_count g dt : ℤ) := by
  unfold tick_moves
  dsimp only
  split
  · rw [spawn_obstacle_score, update_obstacles_score]
    rfl
  · rw [update_obstacles_score]
    rfl

lemma dodge_count_eq_zero (g : Game) (dt : ℚ)
    (h : ∀ o ∈ g.obstacles, o.active = false) : dodge_count g dt = 0 := by
  unfold dodge_count
  rw [List.length_eq_zero, List.filter_eq_nil_iff]
  intro o ho
  simp [h o ho]

/-- Scenario 2 starting state: fresh run sitting in PLAYING, score 0, all
obstacle slots inactive, spawn timer and elapsed time at zero. -/
def scenario2_game : Game :=
  { base_game with state := GameState.PLAYING }

set_option maxRecDepth 100000 in
/-- C9: on a PLAYING tick with no active obstacles, the score advances by
exactly `⌊dt * 20⌋` points of continuous time-based scoring; consequently ten
consecutive ticks of `dt = 0.1 s` from a fresh PLAYING state with no obstacles
spawned or colliding (spawn timer never due) end with score exactly 20. -/
theorem C9_time_scoring (g : Game) (dt : ℚ) (now rw rx : ℕ)
    (hs : g.state = GameState.PLAYING) (hdt : 0 ≤ dt)
    (hobs : ∀ o ∈ g.obstacles, o.active = false) :
    (update_game g dt now rw rx).score = g.score + ⌊dt * 20⌋ ∧
    ((fun g2 => update_game g2 (1 / 10) 0 0 0)^[10] scenario2_game).score = 20 := by
  constructor
  · rw [update_game_playing g dt now rw rx hs, resolve_game_over_score,
        tick_moves_score, dodge_count_eq_zero g dt hobs]
    have hcast : cIntCast (dt * 20) = ⌊dt * 20⌋ := by
      unfold cIntCast
      rw [if_pos (mul_nonneg hdt (by norm_num))]
    rw [hcast]
    ring
  · with_unfolding_all decide

/-- C9 witness: the per-tick accrual instantiated on the Scenario 2 state with
`dt = 0.1`, together with the ten-tick total of 20. -/
theorem C9_witness :
    (update_game scenario2_game (1 / 10) 0 0 0).score =
        scenario2_game.score + ⌊(1 / 10 : ℚ) * 20⌋ ∧
    ((fun g2 => update_game g2 (1 / 10) 0 0 0)^[10] scenario2_game).score = 20 :=
  C9_time_scoring scenario2_game (1 / 10) 0 0 0 rfl (by norm_num) (by decide)

/-- Sample state for C10: PLAYING with a single active obstacle one step away
from bottoming out. -/
def dodge_game : Game :=
  { base_game with
      state := GameState.PLAYING
      obstacles := [{ active_obstacle with y := 595, speed := 1000 }] }

/-- C10: on any PLAYING tick with `0 ≤ dt < 0.05 s` the time-based score
increment `(int)(dt * 20)` is exactly 0, so the tick's score change is exactly
the +10 dodge bonuses; at the program's 60 FPS target frame time
(`FRAME_TIME_MS = 16 ms`, i.e. about 0.0167 s) this zero-increment regime
applies. -/
theorem C10_small_dt_no_time_score (g : Game) (dt : ℚ) (now rw rx : ℕ)
    (hs : g.state = GameState.PLAYING) (h0 : 0 ≤ dt) (hlt : dt < 1 / 20) :
    cIntCast (dt * 20) = 0 ∧
    (update_game g dt now rw rx).score = g.score + 10 * (dodge_count g dt : ℤ) ∧
    FRAME_TIME_MS = 16 ∧ ((FRAME_TIME_MS : ℕ) : ℚ) / 1000 < 1 / 20 := by
  have hz : cIntCast (dt * 20) = 0 := by
    unfold cIntCast
    rw [if_pos (mul_nonneg h0 (by norm_num))]
    rw [Int.floor_eq_zero_iff]
    refine Set.mem_Ico.mpr ⟨mul_nonneg h0 (by norm_num), by linarith⟩
  refine ⟨hz, ?_, by decide, by norm_num [FRAME_TIME_MS, TARGET_FPS]⟩
  rw [update_game_playing g dt now rw rx hs, resolve_game_over_score,
      tick_moves_score, hz]
  ring

/-- C10 witness: at `dt = 0.01` in `dodge_game` the time increment is 0 and
the score moves only by the dodge bonus count. -/
theorem C10_witness :
    cIntCast ((1 / 100 : ℚ) * 20) = 0 ∧
    (update_game dodge_game (1 / 100) 0 0 0).score =
        dodge_game.score + 10 * (dodge_count dodge_game (1 / 100) : ℤ) ∧
    FRAME_TIME_MS = 16 ∧ ((FRAME_TIME_MS : ℕ) : ℚ) / 1000 < 1 / 20 :=
  C10_small_dt_no_time_score dodge_game (1 / 100) 0 0 0 rfl (by norm_num) (by norm_num)

end EndlessDodge
